import Mathlib

/-!
Shallow embedding of the ThermoEye crowd-density monitor
(`src/engine.py`, `src/app.py`) and verification of its specified
properties.  Times and densities are modelled as exact rationals;
pixel masks as Boolean functions over coordinates with explicit
frame dimensions; machine behaviour (deque with maxlen, floor
division via Python `//` and `int()`) is translated operation by
operation.
-/

namespace ThermoEye

/-! ### Alert state machine (`ThermoEye.maybe_send_alert`, engine.py lines 89-123) -/

/-- The `status` field of an emitted alert payload. -/
inductive AlertStatus
  | HIGH
  | CLEAR
deriving DecidableEq, Repr

/-- The mutable engine fields read and written by `maybe_send_alert`:
`self.alert_active` and `self.last_alert_time`. -/
structure AlertState where
  alertActive : Bool
  lastAlertTime : ℚ
deriving DecidableEq, Repr

/-- Model of `maybe_send_alert` (engine.py lines 89-123) as a pure transition:
given the cooldown, the threshold, the current wall-clock time `now`, and
`self.current_density`, it returns the updated `(alert_active,
last_alert_time)` together with the status of the emitted event, if any.
`over = self.current_density > self.density_threshold`; the first `if`
emits HIGH and records the transition time, the second emits CLEAR after
the fixed 2-second hysteresis window. -/
def maybeSendAlert (cooldown threshold now density : ℚ) (s : AlertState) :
    AlertState × Option AlertStatus :=
  let over : Bool := decide (threshold < density)
  let step1 : AlertState × Option AlertStatus :=
    if over && (!s.alertActive || decide (cooldown ≤ now - s.lastAlertTime)) then
      (⟨true, now⟩, some AlertStatus.HIGH)
    else (s, none)
  if !over && step1.1.alertActive && decide ((2 : ℚ) ≤ now - step1.1.lastAlertTime) then
    (⟨false, now⟩, some AlertStatus.CLEAR)
  else step1

/-! ### Occupant estimate and density aggregation (`ThermoEye.process_frame`, engine.py lines 139-161) -/

/-- Grid cell size `self.grid_size = 25` (engine.py line 62). -/
def gridSize : ℕ := 25

/-- Total number of foreground pixels in the cleaned mask over the whole
`h × w` frame: `total_fg = int(np.sum(fg_mask > 0))` (engine.py line 156). -/
def totalFg (mask : ℕ → ℕ → Bool) (h w : ℕ) : ℕ :=
  ∑ y ∈ Finset.range h, ∑ x ∈ Finset.range w, if mask y x then 1 else 0

/-- Number of foreground pixels in grid cell `(i, j)`:
`np.sum(cell > 0)` for `cell = fg_mask[i*25:(i+1)*25, j*25:(j+1)*25]`
(engine.py lines 143-148). -/
def cellCount (mask : ℕ → ℕ → Bool) (i j : ℕ) : ℕ :=
  ∑ y ∈ Finset.range gridSize, ∑ x ∈ Finset.range gridSize,
    if mask (i * gridSize + y) (j * gridSize + x) then 1 else 0

/-- Value of density-map cell `(i, j)`: foreground count divided by
`grid_size ** 2` (engine.py line 148). -/
def densityCell (mask : ℕ → ℕ → Bool) (i j : ℕ) : ℚ :=
  (cellCount mask i j : ℚ) / (gridSize ^ 2 : ℚ)

/-- The unadjusted grid mean `np.mean(density_map)` over the
`(h // 25) × (w // 25)` cell grid (engine.py lines 139-149). -/
def gridMean (mask : ℕ → ℕ → Bool) (h w : ℕ) : ℚ :=
  (∑ i ∈ Finset.range (h / gridSize), ∑ j ∈ Finset.range (w / gridSize),
    densityCell mask i j) / ((h / gridSize) * (w / gridSize) : ℚ)

/-- The raw frame density appended to the history: the grid mean, halved
when the frame was flagged as an extreme pan
(`overall_density *= 0.5`, engine.py lines 149-151). -/
def overallDensity (mask : ℕ → ℕ → Bool) (h w : ℕ) (extremePan : Bool) : ℚ :=
  if extremePan then gridMean mask h w * (1 / 2) else gridMean mask h w

/-- The occupant estimate (engine.py lines 156-161):
`max(1, total_fg // 800)`, then `max(1, int(est / 3.5))`
(for a non-negative integer `est`, `int(est / 3.5) = est * 2 // 7`),
then `int(est * 0.5) = est // 2` when the frame was an extreme pan. -/
def estimatedPeople (fg : ℕ) (extremePan : Bool) : ℕ :=
  let e1 := max 1 (fg / 800)
  let e2 := max 1 (e1 * 2 / 7)
  if extremePan then e2 / 2 else e2

/-- Value of `self.estimated_people` after `process_frame` on a frame with cleaned
mask `mask` of size `h × w` and pan flag `extremePan`. -/
def processPeople (mask : ℕ → ℕ → Bool) (h w : ℕ) (extremePan : Bool) : ℕ :=
  estimatedPeople (totalFg mask h w) extremePan

/-! ### Camera-pan detection (`ThermoEye.detect_camera_pan`, engine.py lines 78-87) -/

/-- Number of pixels whose absolute grayscale difference from the previous
frame exceeds 30: `cv2.threshold(diff, 30, 255, THRESH_BINARY)` marks the
pixels with `diff > 30`, and `np.sum(thresh > 0)` counts them
(engine.py lines 83-85). -/
def diffCount (prev cur : ℕ → ℕ → ℕ) (h w : ℕ) : ℕ :=
  ∑ y ∈ Finset.range h, ∑ x ∈ Finset.range w,
    if 30 < Nat.dist (prev y x) (cur y x) then 1 else 0

/-- Model of `detect_camera_pan` (engine.py lines 78-87) as a pure step on
`self.prev_gray`: with no previous frame it stores the current one and
reports no pan; otherwise it reports a pan exactly when the fraction of
changed pixels exceeds 0.6, and stores the current frame. -/
def detectCameraPanStep (prevGray : Option (ℕ → ℕ → ℕ)) (cur : ℕ → ℕ → ℕ)
    (h w : ℕ) : Option (ℕ → ℕ → ℕ) × Bool :=
  match prevGray with
  | none => (some cur, false)
  | some pg =>
      (some cur, decide ((6 : ℚ) / 10 < (diffCount pg cur h w : ℚ) / ((h : ℚ) * (w : ℚ))))

/-! ### Density history (`deque(maxlen=15)`, engine.py lines 61, 153-154) -/

/-- One `append` on a `collections.deque` with `maxlen`: the new value is
appended and, when capacity is exceeded, the oldest entry is evicted from
the left. -/
def dequeAppend (maxlen : ℕ) (buf : List ℚ) (x : ℚ) : List ℚ :=
  let b := buf ++ [x]
  if maxlen < b.length then b.drop (b.length - maxlen) else b

/-- Arithmetic mean of a list of rationals (`np.mean` over the history). -/
def listMean (l : List ℚ) : ℚ := l.sum / (l.length : ℚ)

/-! ### Engine runtime state, density update and `reset` (engine.py lines 50-76, 153-154) -/

/-- The per-instance mutable fields of `ThermoEye` that the verified
operations read or write.  The MOG2 background model is opaque external
state (cv2) and is not represented. -/
structure EngineState where
  densityThreshold : ℚ
  heatmapOpacity : ℚ
  alertCooldown : ℚ
  prevGray : Option (ℕ → ℕ → ℕ)
  densityHistory : List ℚ
  estimatedPeople : ℕ
  currentDensity : ℚ
  lastAlertTime : ℚ
  alertActive : Bool

/-- The history/smoothing step of `process_frame` (engine.py lines
153-154): append the raw density to the bounded history and recompute
`current_density` as the mean of the buffer. -/
def densityUpdate (s : EngineState) (rawDensity : ℚ) : EngineState :=
  let hist := dequeAppend 15 s.densityHistory rawDensity
  { s with densityHistory := hist, currentDensity := listMean hist }

/-- Model of `ThermoEye.reset` (engine.py lines 70-76): recreates the background
subtractor (opaque, not represented), clears the previous-frame
reference and the density history, and sets `alert_active = False`. -/
def reset (s : EngineState) : EngineState :=
  { s with prevGray := none, densityHistory := [], alertActive := false }

/-! ### Parameter clamping and live updates (app.py lines 342-348, 393-405) -/

/-- Threshold clamping used both in `start` (app.py line 345) and
`set_params` (app.py line 400): `max(0.0, min(1.0, thr))`. -/
def clampThreshold (x : ℚ) : ℚ := max 0 (min 1 x)

/-- Opacity clamping used both in `start` (app.py line 346) and
`set_params` (app.py line 401): `max(0.3, min(1.0, op))`. -/
def clampOpacity (x : ℚ) : ℚ := max (3 / 10) (min 1 x)

/-- The `(threshold, opacity)` pair actually applied by `start`
(app.py lines 342-348) for numeric inputs. -/
def startParams (thr op : ℚ) : ℚ × ℚ := (max 0 (min 1 thr), max (3 / 10) (min 1 op))

/-- Effect of `set_params` on a live engine (app.py lines 398-401): only
the threshold and opacity fields change, both clamped. -/
def setParamsEngine (s : EngineState) (thr op : ℚ) : EngineState :=
  { s with densityThreshold := max 0 (min 1 thr),
           heatmapOpacity := max (3 / 10) (min 1 op) }

/-- The application session state touched by `set_params`: the optional
live engine and the `running` flag (which the route never writes). -/
structure SessionState where
  engine : Option EngineState
  running : Bool

/-- The `/set_params` route (app.py lines 393-405) for numeric inputs:
updates the live engine's parameters if one exists, otherwise does
nothing; never touches `running`. -/
def setParams (st : SessionState) (thr op : ℚ) : SessionState :=
  match st.engine with
  | none => st
  | some e => { st with engine := some (setParamsEngine e thr op) }

/-! ### Ingestion-loop read-failure policy (`video_loop`, app.py lines 86-103) -/

/-- The fixed extension allowlist `ALLOWED_EXT` (app.py line 12),
as character lists. -/
def allowedExt : List (List Char) :=
  [".mp4".toList, ".avi".toList, ".mov".toList, ".mkv".toList, ".flv".toList]

/-- Model of `source.lower().endswith(tuple(ALLOWED_EXT))` (app.py line 89). -/
def endsWithAllowedExt (s : List Char) : Bool :=
  allowedExt.any (fun e => e.isSuffixOf (s.map Char.toLower))

/-- A video source descriptor: the webcam path passes the integer device
index `0`, every other path passes a string (file path or URL)
(app.py lines 310-337). -/
inductive VideoSource
  | deviceIndex (n : ℕ)
  | strSource (s : List Char)

/-- What `video_loop` does after a failed read (app.py lines 87-103). -/
inductive ReadFailureAction
  | seekToStartAndReset
  | releaseBackoffReopen
  | terminateLoop
deriving DecidableEq, Repr

/-- The `if not ret:` branch of `video_loop` (app.py lines 87-103): a
string source with an allowlisted extension is rewound to frame 0 with an
engine reset; any other string source is released, waited on, and
reopened; a non-string source (integer device index) breaks out of the
loop. -/
def onReadFailure : VideoSource → ReadFailureAction
  | .strSource s =>
      if endsWithAllowedExt s then .seekToStartAndReset else .releaseBackoffReopen
  | .deviceIndex _ => .terminateLoop

/-! ### Application alert history (`video_loop` lines 117-137, `api_stats` lines 407-421 of app.py) -/

/-- One entry of the application-level alert history list. -/
structure AlertRecord where
  frameId : ℕ
deriving DecidableEq, Repr

/-- The application state touched by the alert-logging block:
`alerts_history` and `state["stats"]["total_alerts"]`. -/
structure AlertLog where
  history : List AlertRecord
  totalAlerts : ℕ
deriving DecidableEq, Repr

/-- The per-frame alert-logging block of `video_loop` (app.py lines
117-137): when `engine.alert_active and engine.last_alert_time` holds, an
entry is appended, the list is trimmed with one `pop(0)` past 1000
entries, and `total_alerts` is set to the list's length; otherwise
nothing changes. -/
def logAlertStep (st : AlertLog) (alertActive : Bool) (lastAlertTime : ℚ)
    (rec : AlertRecord) : AlertLog :=
  if alertActive && decide (lastAlertTime ≠ 0) then
    let h := st.history ++ [rec]
    let h2 := if 1000 < h.length then h.drop 1 else h
    { history := h2, totalAlerts := h2.length }
  else st

/-- The slice persisted to file each alert frame:
`alerts_history[-100:]` (app.py line 135). -/
def persistedAlerts (st : AlertLog) : List AlertRecord :=
  st.history.drop (st.history.length - 100)

end ThermoEye

namespace ThermoEye

/-! ## Theorems -/

/-- Claim C1 — Alert entry with cooldown: on any processed frame, a HIGH
event is emitted iff `current_density > density_threshold` and either the
alert is not already active or at least `alert_cooldown` seconds have
elapsed since the last transition; moreover, crossing above the threshold
at time `T` with no active alert emits HIGH at `T`, no further HIGH is
emitted while density stays above threshold before `T + cooldown`, and a
frame at or after `T + cooldown` with density still above threshold emits
HIGH again. -/
theorem alert_entry_cooldown :
    (∀ cd th now d : ℚ, ∀ s : AlertState,
      ((maybeSendAlert cd th now d s).2 = some AlertStatus.HIGH ↔
        th < d ∧ (s.alertActive = false ∨ cd ≤ now - s.lastAlertTime)))
  ∧ (∀ cd th T t0 d : ℚ, th < d →
      maybeSendAlert cd th T d ⟨false, t0⟩ = (⟨true, T⟩, some AlertStatus.HIGH))
  ∧ (∀ cd th T t d : ℚ, th < d → t - T < cd →
      maybeSendAlert cd th t d ⟨true, T⟩ = (⟨true, T⟩, none))
  ∧ (∀ cd th T t d : ℚ, th < d → cd ≤ t - T →
      maybeSendAlert cd th t d ⟨true, T⟩ = (⟨true, t⟩, some AlertStatus.HIGH)) := by
  refine ⟨?_, ?_, ?_, ?_⟩
  · intro cd th now d s
    unfold maybeSendAlert
    by_cases hov : th < d <;>
      by_cases hact : s.alertActive <;>
        by_cases hcd : cd ≤ now - s.lastAlertTime <;>
          by_cases h2 : (2:ℚ) ≤ now - s.lastAlertTime <;>
            simp [hov, hact, hcd, h2]
  · intro cd th T t0 d hd
    unfold maybeSendAlert
    simp [hd]
  · intro cd th T t d hd hlt
    unfold maybeSendAlert
    simp [hd, not_le.mpr hlt]
  · intro cd th T t d hd hge
    unfold maybeSendAlert
    simp [hd, hge]

/-- Witness for `alert_entry_cooldown` at concrete inputs: threshold 0.45,
cooldown 3, density 0.6; entry at time 10, suppressed repeat at time 12,
repeated HIGH at time 13. -/
theorem alert_entry_cooldown_witness :
    maybeSendAlert 3 (45/100) 10 (6/10) ⟨false, 0⟩ = (⟨true, 10⟩, some AlertStatus.HIGH)
  ∧ maybeSendAlert 3 (45/100) 12 (6/10) ⟨true, 10⟩ = (⟨true, 10⟩, none)
  ∧ maybeSendAlert 3 (45/100) 13 (6/10) ⟨true, 10⟩ = (⟨true, 13⟩, some AlertStatus.HIGH) :=
  ⟨alert_entry_cooldown.2.1 3 (45/100) 10 0 (6/10) (by norm_num),
   alert_entry_cooldown.2.2.1 3 (45/100) 10 12 (6/10) (by norm_num) (by norm_num),
   alert_entry_cooldown.2.2.2 3 (45/100) 10 13 (6/10) (by norm_num) (by norm_num)⟩

/-- Claim C2 — Alert exit with hysteresis: with the alert active, a CLEAR
event is emitted iff `current_density ≤ density_threshold` and at least
2 seconds have elapsed since the last transition; a drop to or below the
threshold before the 2-second window emits nothing and leaves the state
unchanged, and a qualifying frame at or after it emits CLEAR and
deactivates the alert. -/
theorem alert_exit_hysteresis :
    (∀ cd th now d : ℚ, ∀ s : AlertState, s.alertActive = true →
      ((maybeSendAlert cd th now d s).2 = some AlertStatus.CLEAR ↔
        d ≤ th ∧ (2:ℚ) ≤ now - s.lastAlertTime))
  ∧ (∀ cd th T t d : ℚ, d ≤ th → t - T < 2 →
      maybeSendAlert cd th t d ⟨true, T⟩ = (⟨true, T⟩, none))
  ∧ (∀ cd th T t d : ℚ, d ≤ th → (2:ℚ) ≤ t - T →
      maybeSendAlert cd th t d ⟨true, T⟩ = (⟨false, t⟩, some AlertStatus.CLEAR)) := by
  refine ⟨?_, ?_, ?_⟩
  · intro cd th now d s hact
    unfold maybeSendAlert
    by_cases hov : th < d <;>
      by_cases hcd : cd ≤ now - s.lastAlertTime <;>
        by_cases h2 : (2:ℚ) ≤ now - s.lastAlertTime <;>
          simp [hov, hact, hcd, h2, le_of_not_lt]
  · intro cd th T t d hd hlt
    unfold maybeSendAlert
    simp [not_lt.mpr hd, not_le.mpr hlt]
  · intro cd th T t d hd hge
    unfold maybeSendAlert
    simp [not_lt.mpr hd, hge]

/-- Witness for `alert_exit_hysteresis` at concrete inputs: threshold
0.45, density fallen to 0.2, last transition at time 10; no CLEAR at time
11, CLEAR with deactivation at time 12. -/
theorem alert_exit_hysteresis_witness :
    maybeSendAlert 3 (45/100) 11 (2/10) ⟨true, 10⟩ = (⟨true, 10⟩, none)
  ∧ maybeSendAlert 3 (45/100) 12 (2/10) ⟨true, 10⟩ = (⟨false, 12⟩, some AlertStatus.CLEAR)
  ∧ ((maybeSendAlert 3 (45/100) 12 (2/10) ⟨true, 10⟩).2 = some AlertStatus.CLEAR ↔
      (2:ℚ)/10 ≤ 45/100 ∧ (2:ℚ) ≤ 12 - 10) :=
  ⟨alert_exit_hysteresis.2.1 3 (45/100) 10 11 (2/10) (by norm_num) (by norm_num),
   alert_exit_hysteresis.2.2 3 (45/100) 10 12 (2/10) (by norm_num) (by norm_num),
   alert_exit_hysteresis.1 3 (45/100) 12 (2/10) ⟨true, 10⟩ rfl⟩

end ThermoEye

namespace ThermoEye

/-- Claim C3, counterexample — the claim "estimated_people ≥ 1 whenever the
cleaned mask has any foreground pixel, and estimated_people = 0 only with
no foreground pixels" fails on the code: a 20×25 frame whose mask is
entirely foreground (500 foreground pixels) that is flagged as an extreme
pan yields `estimated_people = int(1 * 0.5) = 0`. -/
theorem occupant_estimate_cex :
    0 < totalFg (fun y x => decide (y < 20 ∧ x < 25)) 20 25
  ∧ processPeople (fun y x => decide (y < 20 ∧ x < 25)) 20 25 true = 0 := by
  decide

/-- Claim C3 as amended — on any frame not flagged as an extreme pan, the
occupant estimate is at least 1 whenever the cleaned mask has a positive
foreground pixel count, and it equals 0 only when no foreground pixels
are present (in fact it is never 0 on such frames); on pan-flagged
frames the final halving can drive the estimate to 0 even with
foreground present. -/
theorem occupant_estimate_amended :
    ∀ (mask : ℕ → ℕ → Bool) (h w : ℕ),
      (0 < totalFg mask h w → 1 ≤ processPeople mask h w false)
    ∧ (processPeople mask h w false = 0 → totalFg mask h w = 0) := by
  intro mask h w
  have h1 : 1 ≤ processPeople mask h w false := by
    unfold processPeople estimatedPeople
    simp
  exact ⟨fun _ => h1, fun h0 => absurd h0 (by omega)⟩

/-- Witness for `occupant_estimate_amended`: the fully-foreground 20×25
mask without a pan flag gives an estimate of at least 1. -/
theorem occupant_estimate_amended_witness :
    1 ≤ processPeople (fun y x => decide (y < 20 ∧ x < 25)) 20 25 false :=
  (occupant_estimate_amended (fun y x => decide (y < 20 ∧ x < 25)) 20 25).1 (by decide)

/-- Claim C4 — pan-flag halving: when the thresholded pixel-wise difference
against the previous grayscale frame exceeds 0.6 of all pixels the pan
flag is true; on a pan-flagged frame the raw density recorded for the
frame is exactly half the unadjusted grid mean, and the occupant estimate
is the §4.3 value `max(1, (max(1, total_fg // 800) * 2) // 7)` halved
with its final flooring. -/
theorem pan_flag_halving :
    (∀ (prev cur : ℕ → ℕ → ℕ) (h w : ℕ),
        (6:ℚ)/10 < (diffCount prev cur h w : ℚ) / ((h:ℚ) * (w:ℚ)) →
        (detectCameraPanStep (some prev) cur h w).2 = true)
  ∧ (∀ (mask : ℕ → ℕ → Bool) (h w : ℕ),
        overallDensity mask h w true = gridMean mask h w * (1/2))
  ∧ (∀ (mask : ℕ → ℕ → Bool) (h w : ℕ),
        processPeople mask h w true = processPeople mask h w false / 2
      ∧ processPeople mask h w false
          = max 1 ((max 1 (totalFg mask h w / 800)) * 2 / 7)) := by
  refine ⟨?_, ?_, ?_⟩
  · intro prev cur h w hf
    simp [detectCameraPanStep, hf]
  · intro mask h w
    simp [overallDensity]
  · intro mask h w
    exact ⟨rfl, rfl⟩

/-- Witness for `pan_flag_halving`: a 1×1 frame pair whose single pixel
changes by 100 gray levels has changed fraction 1 > 0.6, so the pan flag
is reported. -/
theorem pan_flag_halving_witness :
    (detectCameraPanStep (some (fun _ _ => 0)) (fun _ _ => 100) 1 1).2 = true :=
  pan_flag_halving.1 (fun _ _ => 0) (fun _ _ => 100) 1 1 (by
    have hd : diffCount (fun _ _ => 0) (fun _ _ => 100) 1 1 = 1 := by decide
    rw [hd]
    norm_num)

/-- An append on `deque(maxlen=15)` always equals "append then drop the excess
from the left". -/
theorem dequeAppend_eq_drop (l : List ℚ) (x : ℚ) :
    dequeAppend 15 l x = (l ++ [x]).drop ((l.length + 1) - 15) := by
  show (if 15 < (l ++ [x]).length then (l ++ [x]).drop ((l ++ [x]).length - 15)
        else (l ++ [x])) = (l ++ [x]).drop ((l.length + 1) - 15)
  split
  · simp
  · next h =>
    rw [Nat.sub_eq_zero_of_le (by simpa using not_lt.mp h), List.drop_zero]

/-- Dropping at most the first list keeps the drop on the left part. -/
theorem drop_append_of_le (a b : List ℚ) (n : ℕ) (hn : n ≤ a.length) :
    a.drop n ++ b = (a ++ b).drop n := by
  rw [List.drop_append_eq_append_drop, Nat.sub_eq_zero_of_le hn, List.drop_zero]

/-- Folding `deque.append` over a value sequence from any buffer within
capacity leaves exactly the trailing 15 values. -/
theorem foldl_dequeAppend (xs : List ℚ) (l : List ℚ) (hl : l.length ≤ 15) :
    xs.foldl (dequeAppend 15) l = (l ++ xs).drop (l.length + xs.length - 15) := by
  induction xs generalizing l with
  | nil => simp [Nat.sub_eq_zero_of_le hl]
  | cons x xs ih =>
    have hlx : (l ++ [x]).length = l.length + 1 := by simp
    have hlen : (dequeAppend 15 l x).length ≤ 15 := by
      rw [dequeAppend_eq_drop, List.length_drop, hlx]
      omega
    have hle : (l.length + 1) - 15 ≤ (l ++ [x]).length := by
      rw [hlx]; omega
    rw [List.foldl_cons, ih _ hlen, dequeAppend_eq_drop,
      drop_append_of_le _ _ _ hle, List.drop_drop]
    have h2 : (l ++ [x]) ++ xs = l ++ (x :: xs) := by simp
    rw [h2]
    congr 1
    rw [List.length_drop, hlx]
    simp only [List.length_cons]
    omega

/-- Claim C5 — the density history is a fixed-capacity ring buffer: after
appending any sequence of `N` raw values to an initially empty history,
the buffer holds exactly the last `min N 15` values in insertion order
(`drop (N - 15)` of the sequence), and each `process_frame` append sets
`current_density` to the arithmetic mean of the buffer's contents. -/
theorem density_history_ring_buffer :
    (∀ xs : List ℚ,
       xs.foldl (dequeAppend 15) [] = xs.drop (xs.length - 15)
     ∧ (xs.foldl (dequeAppend 15) []).length = min xs.length 15)
  ∧ (∀ (s : EngineState) (x : ℚ),
       (densityUpdate s x).densityHistory = dequeAppend 15 s.densityHistory x
     ∧ (densityUpdate s x).currentDensity
         = listMean (densityUpdate s x).densityHistory) := by
  constructor
  · intro xs
    have h := foldl_dequeAppend xs [] (by simp)
    simp only [List.nil_append, List.length_nil, Nat.zero_add] at h
    refine ⟨h, ?_⟩
    rw [h, List.length_drop]
    omega
  · intro s x
    exact ⟨rfl, rfl⟩

end ThermoEye

namespace ThermoEye

/-- A concrete engine state with an active alert, used to exhibit the
effect of `reset` on `alert_active`. -/
def activeEngineState : EngineState :=
  { densityThreshold := 45/100, heatmapOpacity := 7/10, alertCooldown := 3,
    prevGray := some (fun _ _ => 0), densityHistory := [1/2], estimatedPeople := 2,
    currentDensity := 1/2, lastAlertTime := 10, alertActive := true }

/-- Claim C6, counterexample — the claim that `reset()` does not change
`alert_active` fails on the code: engine.py line 76 sets
`self.alert_active = False`, so resetting a state with an active alert
changes the flag. -/
theorem reset_clears_alert_active_cex :
    activeEngineState.alertActive = true
  ∧ (reset activeEngineState).alertActive = false :=
  ⟨rfl, rfl⟩

/-- Claim C6 as amended — `alert_active` changes only through the §4.4
transition rules (a HIGH-emitting entry sets it true, a CLEAR-emitting
exit sets it false, and a frame emitting no event leaves the whole alert
state unchanged) and through `reset()`, which unconditionally forces it
to false when a looped finite source restarts; the other engine mutators
(live parameter updates and the density/history update) never change
it. -/
theorem alert_active_mutation_amended :
    (∀ s : EngineState, (reset s).alertActive = false)
  ∧ (∀ cd th now d : ℚ, ∀ s : AlertState,
       ((maybeSendAlert cd th now d s).2 = none →
         (maybeSendAlert cd th now d s).1 = s)
     ∧ ((maybeSendAlert cd th now d s).2 = some AlertStatus.HIGH →
         (maybeSendAlert cd th now d s).1.alertActive = true)
     ∧ ((maybeSendAlert cd th now d s).2 = some AlertStatus.CLEAR →
         (maybeSendAlert cd th now d s).1.alertActive = false))
  ∧ (∀ (s : EngineState) (thr op : ℚ),
       (setParamsEngine s thr op).alertActive = s.alertActive)
  ∧ (∀ (s : EngineState) (x : ℚ),
       (densityUpdate s x).alertActive = s.alertActive) := by
  refine ⟨fun s => rfl, ?_, fun s thr op => rfl, fun s x => rfl⟩
  intro cd th now d s
  unfold maybeSendAlert
  by_cases hov : th < d <;>
    by_cases hact : s.alertActive <;>
      by_cases hcd : cd ≤ now - s.lastAlertTime <;>
        by_cases h2 : (2:ℚ) ≤ now - s.lastAlertTime <;>
          simp [hov, hact, hcd, h2]

/-- Witness for `alert_active_mutation_amended`: resetting the concrete
active state clears the flag, and a frame that emits no event (density
0.1 below threshold 0.45, alert inactive) leaves the alert state
untouched. -/
theorem alert_active_mutation_amended_witness :
    (reset activeEngineState).alertActive = false
  ∧ (maybeSendAlert 3 (45/100) 1 (1/10) ⟨false, 0⟩).1 = (⟨false, 0⟩ : AlertState) :=
  ⟨alert_active_mutation_amended.1 activeEngineState,
   (alert_active_mutation_amended.2.1 3 (45/100) 1 (1/10) ⟨false, 0⟩).1
     (by norm_num [maybeSendAlert])⟩

/-- Claim C7, counterexample — the claim that a failed read on a live camera
source triggers release/backoff/reopen rather than loop termination fails
on the code: the webcam source is the integer device index 0, which is
not a string, so `video_loop` hits the `else: break` branch (app.py
lines 102-103) and terminates. -/
theorem camera_read_failure_cex :
    onReadFailure (.deviceIndex 0) = .terminateLoop
  ∧ ReadFailureAction.terminateLoop ≠ ReadFailureAction.releaseBackoffReopen :=
  ⟨rfl, by decide⟩

/-- Claim C7 as amended — on a failed read, a string source whose lowercased
form ends in an allowlisted extension is rewound to frame 0 with an
engine reset; any other string source (network stream URL) is released,
waited on briefly, and reopened without terminating the loop; a
non-string camera device index terminates the loop. -/
theorem read_failure_policy_amended :
    (∀ s : List Char, endsWithAllowedExt s = true →
        onReadFailure (.strSource s) = .seekToStartAndReset)
  ∧ (∀ s : List Char, endsWithAllowedExt s = false →
        onReadFailure (.strSource s) = .releaseBackoffReopen)
  ∧ (∀ n : ℕ, onReadFailure (.deviceIndex n) = .terminateLoop) := by
  refine ⟨?_, ?_, fun n => rfl⟩
  · intro s hs
    simp [onReadFailure, hs]
  · intro s hs
    simp [onReadFailure, hs]

/-- Witness for `read_failure_policy_amended`: an uppercase `.MP4` file
path loops back to the start, an RTSP URL is released and reopened. -/
theorem read_failure_policy_amended_witness :
    onReadFailure (.strSource "VIDEO.MP4".toList) = .seekToStartAndReset
  ∧ onReadFailure (.strSource "rtsp://cam".toList) = .releaseBackoffReopen :=
  ⟨read_failure_policy_amended.1 "VIDEO.MP4".toList (by decide),
   read_failure_policy_amended.2.1 "rtsp://cam".toList (by decide)⟩

/-- Claim C8 — parameter updates never reject out-of-range values: any
numeric threshold input is clamped to the nearest bound of `[0, 1]` and
any numeric opacity input to the nearest bound of `[0.3, 1]`, both by
`start` and by `set_params` on the live engine, and `set_params` leaves
the `running` flag unchanged. -/
theorem params_clamped :
    (∀ x : ℚ, (x < 0 → clampThreshold x = 0) ∧ (1 < x → clampThreshold x = 1)
        ∧ (0 ≤ x → x ≤ 1 → clampThreshold x = x))
  ∧ (∀ x : ℚ, (x < 3/10 → clampOpacity x = 3/10) ∧ (1 < x → clampOpacity x = 1)
        ∧ (3/10 ≤ x → x ≤ 1 → clampOpacity x = x))
  ∧ (∀ thr op : ℚ, startParams thr op = (clampThreshold thr, clampOpacity op))
  ∧ (∀ (e : EngineState) (thr op : ℚ),
       (setParamsEngine e thr op).densityThreshold = clampThreshold thr
     ∧ (setParamsEngine e thr op).heatmapOpacity = clampOpacity op)
  ∧ (∀ (st : SessionState) (thr op : ℚ),
       (setParams st thr op).running = st.running) := by
  refine ⟨?_, ?_, fun thr op => rfl, fun e thr op => ⟨rfl, rfl⟩, ?_⟩
  · intro x
    unfold clampThreshold
    refine ⟨fun h => ?_, fun h => ?_, fun h1 h2 => ?_⟩
    · rw [min_eq_right (by linarith), max_eq_left (by linarith)]
    · rw [min_eq_left (by linarith), max_eq_right (by norm_num)]
    · rw [min_eq_right h2, max_eq_right h1]
  · intro x
    unfold clampOpacity
    refine ⟨fun h => ?_, fun h => ?_, fun h1 h2 => ?_⟩
    · rw [min_eq_right (by linarith), max_eq_left (by linarith)]
    · rw [min_eq_left (by linarith), max_eq_right (by norm_num)]
    · rw [min_eq_right h2, max_eq_right h1]
  · intro st thr op
    rcases st with ⟨eng, run⟩
    cases eng <;> rfl

/-- Witness for `params_clamped`: threshold input −1 is clamped to 0 and
opacity input 2 is clamped to 1. -/
theorem params_clamped_witness :
    clampThreshold (-1) = 0 ∧ clampOpacity 2 = 1 :=
  ⟨(params_clamped.1 (-1)).1 (by norm_num),
   (params_clamped.2.1 2).2.1 (by norm_num)⟩

end ThermoEye

namespace ThermoEye

/-- Claim C9 — the density grid covers only complete 25×25 cells: any two
masks that agree on the covered region (rows below `(h//25)*25`, columns
below `(w//25)*25`) have identical cell counts, identical grid mean, and
identical raw frame density, so foreground pixels in the trailing partial
rows/columns contribute nothing to them; yet such a pixel still counts
toward `total_fg` — on a 26×26 frame, a lone foreground pixel at (25,25)
gives `total_fg = 1` against 0 for the empty mask. -/
theorem partial_cells_excluded :
    (∀ (m m' : ℕ → ℕ → Bool) (h w : ℕ),
       (∀ y x, y < (h / gridSize) * gridSize → x < (w / gridSize) * gridSize →
          m y x = m' y x) →
       (∀ i j, i < h / gridSize → j < w / gridSize →
          cellCount m i j = cellCount m' i j)
       ∧ gridMean m h w = gridMean m' h w
       ∧ (∀ pan, overallDensity m h w pan = overallDensity m' h w pan))
  ∧ (totalFg (fun y x => decide (y = 25 ∧ x = 25)) 26 26 = 1
   ∧ totalFg (fun _ _ => false) 26 26 = 0) := by
  constructor
  · intro m m' h w hagree
    have hcell : ∀ i j, i < h / gridSize → j < w / gridSize →
        cellCount m i j = cellCount m' i j := by
      intro i j hi hj
      unfold cellCount
      refine Finset.sum_congr rfl (fun y hy => Finset.sum_congr rfl (fun x hx => ?_))
      rw [hagree (i * gridSize + y) (j * gridSize + x) ?_ ?_]
      · calc i * gridSize + y < i * gridSize + gridSize :=
              Nat.add_lt_add_left (Finset.mem_range.mp hy) _
          _ = (i + 1) * gridSize := by ring
          _ ≤ (h / gridSize) * gridSize := Nat.mul_le_mul_right _ hi
      · calc j * gridSize + x < j * gridSize + gridSize :=
              Nat.add_lt_add_left (Finset.mem_range.mp hx) _
          _ = (j + 1) * gridSize := by ring
          _ ≤ (w / gridSize) * gridSize := Nat.mul_le_mul_right _ hj
    have hmean : gridMean m h w = gridMean m' h w := by
      have hsum : (∑ i ∈ Finset.range (h / gridSize), ∑ j ∈ Finset.range (w / gridSize),
            densityCell m i j)
          = ∑ i ∈ Finset.range (h / gridSize), ∑ j ∈ Finset.range (w / gridSize),
            densityCell m' i j := by
        refine Finset.sum_congr rfl (fun i hi => Finset.sum_congr rfl (fun j hj => ?_))
        unfold densityCell
        rw [hcell i j (Finset.mem_range.mp hi) (Finset.mem_range.mp hj)]
      unfold gridMean
      rw [hsum]
    exact ⟨hcell, hmean, fun pan => by unfold overallDensity; rw [hmean]⟩
  · exact ⟨by decide, by decide⟩

/-- Witness for `partial_cells_excluded`: on a 26×26 frame the lone
foreground pixel at (25,25) lies outside every complete cell, so the
grid mean equals that of the empty mask. -/
theorem partial_cells_excluded_witness :
    gridMean (fun y x => decide (y = 25 ∧ x = 25)) 26 26
      = gridMean (fun _ _ => false) 26 26 :=
  ((partial_cells_excluded.1 (fun y x => decide (y = 25 ∧ x = 25))
      (fun _ _ => false) 26 26 (by
        intro y x hy hx
        simp only [gridSize] at hy hx
        simp only [decide_eq_false_iff_not]
        omega)).2).1

/-- Claim C10 — application alert history: each processed frame with
`alert_active` (and a nonzero transition time) appends exactly one entry
— independently of whether an event was emitted that frame — while a
frame without `alert_active` changes nothing; the trim keeps the list at
no more than 1000 entries; `total_alerts` always equals the list length
after a step whenever it did before; and the persisted slice is the last
`min(length, 100)` entries. -/
theorem alert_history_logging :
    (∀ (st : AlertLog) (t : ℚ) (r : AlertRecord), t ≠ 0 →
        st.history.length < 1000 →
        (logAlertStep st true t r).history = st.history ++ [r])
  ∧ (∀ (st : AlertLog) (t : ℚ) (r : AlertRecord), t ≠ 0 →
        st.history.length = 1000 →
        (logAlertStep st true t r).history = (st.history ++ [r]).drop 1)
  ∧ (∀ (st : AlertLog) (t : ℚ) (r : AlertRecord), logAlertStep st false t r = st)
  ∧ (∀ (st : AlertLog) (a : Bool) (t : ℚ) (r : AlertRecord),
        st.totalAlerts = st.history.length →
        (logAlertStep st a t r).totalAlerts = (logAlertStep st a t r).history.length)
  ∧ (∀ (st : AlertLog) (a : Bool) (t : ℚ) (r : AlertRecord),
        st.history.length ≤ 1000 → (logAlertStep st a t r).history.length ≤ 1000)
  ∧ (∀ st : AlertLog, (persistedAlerts st).length = min st.history.length 100) := by
  refine ⟨?_, ?_, ?_, ?_, ?_, ?_⟩
  · intro st t r ht hlen
    unfold logAlertStep
    simp [ht]
    intro hcon
    omega
  · intro st t r ht hlen
    unfold logAlertStep
    simp [ht]
    intro hcon
    omega
  · intro st t r
    unfold logAlertStep
    simp
  · intro st a t r hinv
    unfold logAlertStep
    by_cases ha : a <;> by_cases ht : t = 0 <;> simp [ha, ht, hinv]
  · intro st a t r hlen
    unfold logAlertStep
    by_cases ha : a <;> by_cases ht : t = 0 <;> simp [ha, ht, hlen]
    split
    · rw [List.length_tail]
      simp only [List.length_append, List.length_cons, List.length_nil]
      omega
    · next hcon =>
      simp only [not_lt, List.length_append, List.length_cons, List.length_nil] at hcon
      simp only [List.length_append, List.length_cons, List.length_nil]
      omega
  · intro st
    unfold persistedAlerts
    rw [List.length_drop]
    omega

/-- Witness for `alert_history_logging`: from an empty history, one
alert-active frame at a nonzero transition time appends exactly the one
record, and an alert-inactive frame changes nothing. -/
theorem alert_history_logging_witness :
    (logAlertStep ⟨[], 0⟩ true 1 ⟨7⟩).history = [(⟨7⟩ : AlertRecord)]
  ∧ logAlertStep ⟨[], 0⟩ false 1 ⟨7⟩ = (⟨[], 0⟩ : AlertLog)
  ∧ (logAlertStep ⟨[], 0⟩ true 1 ⟨7⟩).totalAlerts
      = (logAlertStep ⟨[], 0⟩ true 1 ⟨7⟩).history.length :=
  ⟨alert_history_logging.1 ⟨[], 0⟩ 1 ⟨7⟩ (by norm_num) (by decide),
   alert_history_logging.2.2.1 ⟨[], 0⟩ 1 ⟨7⟩,
   alert_history_logging.2.2.2.1 ⟨[], 0⟩ true 1 ⟨7⟩ rfl⟩

end ThermoEye
